import Mathlib

set_option maxRecDepth 10000

/-!
Verification development for the bitaxe-cli program (src/main.rs).

The Rust source is shallowly embedded: every function below is translated
directly from the corresponding Rust function. External effects are made
explicit parameters: the environment variable lookup becomes an
`Option String` argument, the config-file loading outcome becomes a
`FileOutcome` value, and the HTTP response becomes a status code plus an
already-decoded body. Machine floating point (f64) is modelled by exact
rationals: every numeric value flowing through the program is a `ℚ`, and
the Rust fixed-precision formatter (round half to even on the exact
decimal value) is implemented on `ℚ`.
-/

namespace Bitaxe

/-- A JSON number as stored by serde_json without arbitrary precision:
a non-negative integer (PosInt, u64), a negative integer (NegInt, i64),
or a float. The f64 payload is modelled as the exact rational value it
denotes. -/
inductive JNum where
  | posInt (n : Nat)
  | negInt (z : Int)
  | float (q : ℚ)
deriving DecidableEq

/-- The numeric value a `JNum` denotes. -/
def JNum.toVal : JNum → ℚ
  | .posInt n => (n : ℚ)
  | .negInt z => (z : ℚ)
  | .float q => q

/-- serde_json Value: the untyped JSON document type. Objects are modelled
as association lists (serde_json resolves duplicate keys before lookup;
the documents considered here have distinct keys). -/
inductive JValue where
  | null
  | bool (b : Bool)
  | num (n : JNum)
  | str (s : String)
  | arr (xs : List JValue)
  | obj (fields : List (String × JValue))

/-- Value::get(key): key lookup on an object, None on any other shape. -/
def JValue.get : JValue → String → Option JValue
  | .obj fs, k => (fs.find? (fun p => p.1 == k)).map Prod.snd
  | _, _ => none

/-- Value::as_f64(): any JSON number converts to f64 (integer variants via
a numeric cast, modelled exactly). -/
def JValue.as_f64 : JValue → Option ℚ
  | .num n => some n.toVal
  | _ => none

/-- Value::as_i64(): signed integers in range; floats are rejected. -/
def JValue.as_i64 : JValue → Option Int
  | .num (.posInt n) => if n ≤ 2 ^ 63 - 1 then some (n : Int) else none
  | .num (.negInt z) => some z
  | _ => none

/-- Value::as_u64(): only the non-negative integer representation. -/
def JValue.as_u64 : JValue → Option Nat
  | .num (.posInt n) => some n
  | _ => none

/-- Value::as_str(): only JSON strings. -/
def JValue.as_str : JValue → Option String
  | .str s => some s
  | _ => none

/-- Whether the value is a JSON number. -/
def JValue.isNumber : JValue → Bool
  | .num _ => true
  | _ => false

/-- Whether the value is a JSON string. -/
def JValue.isString : JValue → Bool
  | .str _ => true
  | _ => false

/-- Floor of a rational, computed by floored integer division. -/
def ratFloor (q : ℚ) : Int :=
  Int.fdiv q.num (q.den : Int)

/-- Round half to even, the rounding Rust fixed-precision float formatting
applies to the exact decimal value. -/
def rhe (q : ℚ) : Int :=
  let f : Int := ratFloor q
  let frac : ℚ := q - (f : ℚ)
  if frac < 1 / 2 then f
  else if 1 / 2 < frac then f + 1
  else if f % 2 = 0 then f else f + 1

/-- Left-pad a digit string with zeros to the requested width. -/
def padZeros (width : Nat) (s : String) : String :=
  String.mk (List.replicate (width - s.length) '0') ++ s

/-- Rust {:.prec} formatting of an f64, on the exact rational value:
round half to even at prec decimal places, print sign, integer part and
exactly prec fractional digits. -/
def fmtFixed (prec : Nat) (q : ℚ) : String :=
  let sign := if q < 0 then "-" else ""
  let m : Nat := (rhe (|q| * (10 : ℚ) ^ prec)).toNat
  if prec = 0 then sign ++ toString m
  else sign ++ toString (m / 10 ^ prec) ++ "." ++ padZeros prec (toString (m % 10 ^ prec))

/-- Print a non-negative rational with exactly d fractional digits,
assuming q * 10 ^ d is an integer; no decimal point when d = 0. -/
def fmtWithDigits (q : ℚ) (d : Nat) : String :=
  let m : Nat := (q * (10 : ℚ) ^ d).num.toNat
  if d = 0 then toString m
  else toString (m / 10 ^ d) ++ "." ++ padZeros d (toString (m % 10 ^ d))

/-- Rust {} Display of an f64, on the exact rational value: the shortest
decimal expansion, no decimal point for integral values. Every f64 is a
dyadic rational, so an exact finite expansion of at most 1200 fractional
digits exists; the final branch is unreachable for such values. -/
def fmtShortest (q : ℚ) : String :=
  let sign := if q < 0 then "-" else ""
  match (List.range 1200).find? (fun d => (|q| * (10 : ℚ) ^ d).den = 1) with
  | some d => sign ++ fmtWithDigits (|q|) d
  | none => sign ++ toString |q|.num ++ "/" ++ toString |q|.den

/-- The closure inside get_number (main.rs lines 107-111):
v.as_f64().or_else(as_i64 as f64).or_else(as_u64 as f64). -/
def numberExtract (v : JValue) : Option ℚ :=
  (v.as_f64.or ((v.as_i64).map (fun i => (i : ℚ)))).or ((v.as_u64).map (fun u => (u : ℚ)))

/-- get_number (main.rs lines 106-112): tolerant numeric field access. -/
def get_number (root : JValue) (key : String) : Option ℚ :=
  (root.get key).bind numberExtract

/-- get_str (main.rs lines 114-116): tolerant string field access. -/
def get_str (root : JValue) (key : String) : Option String :=
  (root.get key).bind JValue.as_str

/-- The body of get_any_as_string for a present value (main.rs 120-130). -/
def anyAsString (v : JValue) : Option String :=
  match v.as_str with
  | some s => some s
  | none =>
    match v.as_f64 with
    | some n => some (fmtShortest n)
    | none =>
      match v.as_i64 with
      | some i => some (toString i)
      | none =>
        match v.as_u64 with
        | some u => some (toString u)
        | none => none

/-- get_any_as_string (main.rs lines 118-131): numeric-or-string access. -/
def get_any_as_string (root : JValue) (key : String) : Option String :=
  (root.get key).bind anyAsString

/-- The two subcommands (main.rs lines 32-39). -/
inductive Commands where
  | status
  | restart
deriving DecidableEq

/-- The parsed command line (main.rs lines 22-30): the optional host
override and the subcommand. -/
structure Cli where
  host : Option String
  command : Commands
deriving DecidableEq

/-- AppConfig (main.rs lines 10-13): the config-file shape. -/
structure AppConfig where
  host : Option String
deriving DecidableEq

/-- The message of the bail in resolve_host (main.rs line 103). -/
def noHostMsg : String :=
  "No host configured. Use --host, set BITAXE_URL, or create ~/.config/bitaxe-cli/config.toml"

/-- The tail of resolve_host after CLI and environment fell through
(main.rs lines 99-103): return the config-file host or bail. -/
def resolveFile (cfg : AppConfig) : Except String String :=
  match cfg.host with
  | some h => Except.ok h
  | none => Except.error noHostMsg

/-- resolve_host (main.rs lines 88-104). The environment lookup
env::var("BITAXE_URL") is passed in as an Option (Err for an unset
variable becomes none). -/
def resolve_host (cli : Cli) (envVar : Option String) (cfg : AppConfig) : Except String String :=
  match cli.host with
  | some h => Except.ok h
  | none =>
    match envVar with
    | some h => if h.isEmpty then resolveFile cfg else Except.ok h
    | none => resolveFile cfg

/-- The outcome of the external config-file machinery that load_config
drives: the file may be missing, fail to parse at builder.build(),
parse but fail try_deserialize, or deserialize to a host field. -/
inductive FileOutcome where
  | absent
  | parseError
  | deserError
  | loaded (host : Option String)
deriving DecidableEq

/-- load_config (main.rs lines 59-77). A missing file adds no source and
the empty build deserializes to an all-None AppConfig; a build failure is
discarded by .ok() and also yields the all-None AppConfig; a
deserialization failure propagates through the question-mark operator. -/
def load_config : FileOutcome → Except String AppConfig
  | .absent => Except.ok { host := none }
  | .parseError => Except.ok { host := none }
  | .deserError => Except.error "config deserialization error"
  | .loaded h => Except.ok { host := h }

/-- The config value main actually uses (main.rs line 43):
load_config().unwrap_or(AppConfig { host: None }). -/
def mainLoadedConfig (f : FileOutcome) : AppConfig :=
  match load_config f with
  | Except.ok c => c
  | Except.error _ => { host := none }

/-- HTTP method of an outbound request. -/
inductive HttpMethod where
  | get
  | post
deriving DecidableEq

/-- An outbound HTTP request: method and URL. -/
structure HttpRequest where
  method : HttpMethod
  url : String
deriving DecidableEq

/-- The request show_status issues (main.rs lines 134-135). -/
def statusRequest (host : String) : HttpRequest :=
  { method := HttpMethod.get, url := host ++ "/api/system/info" }

/-- The request restart_miner issues (main.rs lines 207-208). -/
def restartRequest (host : String) : HttpRequest :=
  { method := HttpMethod.post, url := host ++ "/api/system/restart" }

/-- Canonical reason phrases of the http crate StatusCode, for the status
codes this development evaluates. -/
def canonicalReason : Nat → Option String
  | 200 => some "OK"
  | 404 => some "Not Found"
  | 500 => some "Internal Server Error"
  | 503 => some "Service Unavailable"
  | _ => none

/-- Display of an HTTP StatusCode (http crate): the numeric code, a
space, and the canonical reason phrase. -/
def statusDisplay (c : Nat) : String :=
  toString c ++ " " ++ (canonicalReason c).getD "<unknown status code>"

/-- StatusCode::is_success(): 2xx. -/
def isSuccessStatus (c : Nat) : Bool :=
  200 ≤ c && c < 300

/-- One println-under-if-let of show_status: a present field yields one
line, an absent field yields none. -/
def optLine {α : Type} (o : Option α) (f : α → String) : List String :=
  match o with
  | some x => [f x]
  | none => []

/-- The data lines show_status prints after the header (main.rs lines
144-201), in source order, with the source label and format strings. -/
def showStatusLines (info : JValue) : List String :=
  optLine (get_str info "hostname") (fun hostname => "Hostname        : " ++ hostname) ++
  optLine (get_number info "hashRate") (fun hash => "Hashrate        : " ++ fmtFixed 2 hash ++ " GH/s") ++
  optLine (get_any_as_string info "bestDiff") (fun best => "Best Diff       : " ++ best) ++
  optLine (get_any_as_string info "bestSessionDiff") (fun bs => "Best Session    : " ++ bs) ++
  optLine (get_number info "sharesAccepted") (fun a => "Shares Accepted : " ++ fmtFixed 0 a) ++
  optLine (get_number info "sharesRejected") (fun r => "Shares Rejected : " ++ fmtFixed 0 r) ++
  optLine (get_number info "temp") (fun t => "Core Temp       : " ++ fmtFixed 1 t ++ " °C") ++
  optLine (get_number info "vrTemp") (fun t => "VR Temp         : " ++ fmtFixed 1 t ++ " °C") ++
  optLine (get_number info "power") (fun p => "Power           : " ++ fmtFixed 2 p ++ " W") ++
  optLine (get_number info "voltage") (fun vRaw => "PSU Voltage     : " ++ fmtFixed 2 (vRaw / 1000) ++ " V") ++
  optLine (get_number info "frequency") (fun f => "Frequency       : " ++ fmtFixed 0 f ++ " MHz") ++
  optLine (get_number info "coreVoltage") (fun cv => "Core V (set)    : " ++ fmtFixed 0 cv ++ " mV") ++
  optLine (get_number info "coreVoltageActual") (fun cva => "Core V (actual) : " ++ fmtFixed 0 cva ++ " mV") ++
  optLine (get_number info "wifiRSSI") (fun rssi => "WiFi RSSI       : " ++ fmtFixed 0 rssi ++ " dBm") ++
  optLine (get_str info "wifiStatus") (fun st => "WiFi Status     : " ++ st)

/-- show_status (main.rs lines 133-204), given the response: the HTTP
status code and the JSON-decoded body (none when the body is not valid
JSON, the resp.json() failure). Ok carries the printed lines. -/
def show_status (status : Nat) (body : Option JValue) : Except String (List String) :=
  if isSuccessStatus status then
    match body with
    | none => Except.error "error decoding response body"
    | some info => Except.ok ("=== Bitaxe System Info ===" :: showStatusLines info)
  else
    Except.error ("Request failed with status " ++ statusDisplay status)

/-- restart_miner (main.rs lines 206-214), given the response status and
(unread) body. Ok carries the printed lines. -/
def restart_miner (status : Nat) (_body : Option JValue) : Except String (List String) :=
  if isSuccessStatus status then
    Except.ok ["Restart command sent successfully."]
  else
    Except.error ("Restart failed with status " ++ statusDisplay status)

/-- main (main.rs lines 41-56), with all external effects as inputs: the
parsed CLI, the environment variable, the config-file outcome, and the
HTTP response the single outbound request receives. -/
def mainRun (cli : Cli) (envVar : Option String) (file : FileOutcome)
    (respStatus : Nat) (respBody : Option JValue) : Except String (List String) :=
  let cfg := mainLoadedConfig file
  match resolve_host cli envVar cfg with
  | Except.error e => Except.error e
  | Except.ok _ =>
    match cli.command with
    | Commands.status => show_status respStatus respBody
    | Commands.restart => restart_miner respStatus respBody

/-- The record of the fifteen fields show_status extracts, one Option per
declared field (the TelemetryRecord of the specification). -/
structure TelemetryRecord where
  hostname : Option String
  hashRate : Option ℚ
  bestDiff : Option String
  bestSessionDiff : Option String
  sharesAccepted : Option ℚ
  sharesRejected : Option ℚ
  temp : Option ℚ
  vrTemp : Option ℚ
  power : Option ℚ
  voltage : Option ℚ
  frequency : Option ℚ
  coreVoltage : Option ℚ
  coreVoltageActual : Option ℚ
  wifiRSSI : Option ℚ
  wifiStatus : Option String
deriving DecidableEq

/-- The extraction show_status performs, gathered into a record: exactly
the fifteen get_str / get_number / get_any_as_string calls of main.rs
lines 144-201. -/
def TelemetryRecord.extract (info : JValue) : TelemetryRecord where
  hostname := get_str info "hostname"
  hashRate := get_number info "hashRate"
  bestDiff := get_any_as_string info "bestDiff"
  bestSessionDiff := get_any_as_string info "bestSessionDiff"
  sharesAccepted := get_number info "sharesAccepted"
  sharesRejected := get_number info "sharesRejected"
  temp := get_number info "temp"
  vrTemp := get_number info "vrTemp"
  power := get_number info "power"
  voltage := get_number info "voltage"
  frequency := get_number info "frequency"
  coreVoltage := get_number info "coreVoltage"
  coreVoltageActual := get_number info "coreVoltageActual"
  wifiRSSI := get_number info "wifiRSSI"
  wifiStatus := get_str info "wifiStatus"

/-- Rendering of a telemetry record in the fixed declared field order of
the specification (hostname, hashRate, bestDiff, bestSessionDiff,
sharesAccepted, sharesRejected, temp, vrTemp, power, voltage, frequency,
coreVoltage, coreVoltageActual, wifiRSSI, wifiStatus), one line per
present field, no line for an absent field. -/
def renderRecord (r : TelemetryRecord) : List String :=
  optLine r.hostname (fun hostname => "Hostname        : " ++ hostname) ++
  optLine r.hashRate (fun hash => "Hashrate        : " ++ fmtFixed 2 hash ++ " GH/s") ++
  optLine r.bestDiff (fun best => "Best Diff       : " ++ best) ++
  optLine r.bestSessionDiff (fun bs => "Best Session    : " ++ bs) ++
  optLine r.sharesAccepted (fun a => "Shares Accepted : " ++ fmtFixed 0 a) ++
  optLine r.sharesRejected (fun rj => "Shares Rejected : " ++ fmtFixed 0 rj) ++
  optLine r.temp (fun t => "Core Temp       : " ++ fmtFixed 1 t ++ " °C") ++
  optLine r.vrTemp (fun t => "VR Temp         : " ++ fmtFixed 1 t ++ " °C") ++
  optLine r.power (fun p => "Power           : " ++ fmtFixed 2 p ++ " W") ++
  optLine r.voltage (fun vRaw => "PSU Voltage     : " ++ fmtFixed 2 (vRaw / 1000) ++ " V") ++
  optLine r.frequency (fun f => "Frequency       : " ++ fmtFixed 0 f ++ " MHz") ++
  optLine r.coreVoltage (fun cv => "Core V (set)    : " ++ fmtFixed 0 cv ++ " mV") ++
  optLine r.coreVoltageActual (fun cva => "Core V (actual) : " ++ fmtFixed 0 cva ++ " mV") ++
  optLine r.wifiRSSI (fun rssi => "WiFi RSSI       : " ++ fmtFixed 0 rssi ++ " dBm") ++
  optLine r.wifiStatus (fun st => "WiFi Status     : " ++ st)

/-- Helper: a value that is not a JSON number extracts no number. -/
theorem numberExtract_isNumber_false :
  ∀ v : JValue, v.isNumber = false → numberExtract v = none := by
  intro v hv
  cases v <;> simp_all [JValue.isNumber, numberExtract, JValue.as_f64, JValue.as_i64, JValue.as_u64]

/-- Helper: a value that is neither a JSON number nor a JSON string
extracts no numeric-or-string text. -/
theorem anyAsString_mismatch :
  ∀ v : JValue, v.isNumber = false → v.isString = false → anyAsString v = none := by
  intro v hn hs
  cases v <;> simp_all [JValue.isNumber, JValue.isString, anyAsString, JValue.as_str,
    JValue.as_f64, JValue.as_i64, JValue.as_u64]

/-- Helper: on a JSON number the extraction chain of get_number yields
the numeric value of the number, whatever its encoding. -/
theorem numberExtract_num :
  ∀ n : JNum, numberExtract (JValue.num n) = some n.toVal := by
  intro n
  cases n <;> simp [numberExtract, JValue.as_f64]

/-- Claim C1: address resolution follows the strict precedence CLI
override over environment variable over config file, with exactly one
winning source: a present override is returned whatever the environment
and file hold; with the override absent, a present non-empty environment
value is returned whatever the file holds; and with the override absent
and the environment absent or empty, a present file value is returned. -/
theorem resolve_host_precedence :
  ∀ (cli : Cli) (envVar : Option String) (cfg : AppConfig),
    (∀ h, cli.host = some h → resolve_host cli envVar cfg = Except.ok h) ∧
    (∀ e, cli.host = none → envVar = some e → e.isEmpty = false →
      resolve_host cli envVar cfg = Except.ok e) ∧
    (∀ f, cli.host = none → (envVar = none ∨ envVar = some "") → cfg.host = some f →
      resolve_host cli envVar cfg = Except.ok f) := by
  intro cli envVar cfg
  refine ⟨?_, ?_, ?_⟩
  · intro h hh
    simp [resolve_host, hh]
  · intro e hc he hne
    simp [resolve_host, hc, he, hne]
  · intro f hc henv hf
    rcases henv with h1 | h1 <;>
      simp [resolve_host, hc, h1, resolveFile, hf, show String.isEmpty "" = true from rfl]

/-- Witness for C1: the three precedence branches at concrete sources. -/
theorem resolve_host_precedence_app :
  resolve_host { host := some "http://a", command := Commands.status } (some "http://b")
      { host := some "http://c" } = Except.ok "http://a" ∧
  resolve_host { host := none, command := Commands.status } (some "http://b")
      { host := some "http://c" } = Except.ok "http://b" ∧
  resolve_host { host := none, command := Commands.status } (some "")
      { host := some "http://c" } = Except.ok "http://c" :=
  ⟨(resolve_host_precedence _ _ _).1 "http://a" rfl,
   (resolve_host_precedence _ _ _).2.1 "http://b" rfl rfl (by decide),
   (resolve_host_precedence _ _ _).2.2 "http://c" rfl (Or.inr rfl) rfl⟩

/-- Claim C2: telemetry extraction is total and idempotent. Every
extractor is a total function of the document; extracting twice yields
identical results; a key that is missing and a key bound to a value of
the wrong type both yield an absent field, for numeric, string, and
numeric-or-string kinds alike. -/
theorem extraction_total_and_tolerant :
  ∀ (doc : JValue) (k : String),
    TelemetryRecord.extract doc = TelemetryRecord.extract doc ∧
    (doc.get k = none →
      get_number doc k = none ∧ get_str doc k = none ∧ get_any_as_string doc k = none) ∧
    (∀ v, doc.get k = some v → v.isNumber = false → get_number doc k = none) ∧
    (∀ v, doc.get k = some v → v.isString = false → get_str doc k = none) ∧
    (∀ v, doc.get k = some v → v.isNumber = false → v.isString = false →
      get_any_as_string doc k = none) := by
  intro doc k
  refine ⟨rfl, ?_, ?_, ?_, ?_⟩
  · intro h
    simp [get_number, get_str, get_any_as_string, h]
  · intro v hv hnum
    simp [get_number, hv, numberExtract_isNumber_false v hnum]
  · intro v hv hstr
    cases v <;> simp_all [get_str, JValue.isString, JValue.as_str]
  · intro v hv hnum hstr
    simp [get_any_as_string, hv, anyAsString_mismatch v hnum hstr]

/-- Witness for C2: a document holding a string under hashRate and a
number under hostname, with extra and missing keys: every mismatched or
missing field extracts to none. -/
theorem extraction_total_and_tolerant_app :
  TelemetryRecord.extract (JValue.obj [("hashRate", JValue.str "fast"), ("hostname", JValue.num (JNum.posInt 1))]) =
    TelemetryRecord.extract (JValue.obj [("hashRate", JValue.str "fast"), ("hostname", JValue.num (JNum.posInt 1))]) ∧
  get_number (JValue.obj [("hashRate", JValue.str "fast"), ("hostname", JValue.num (JNum.posInt 1))]) "temp" = none ∧
  get_number (JValue.obj [("hashRate", JValue.str "fast"), ("hostname", JValue.num (JNum.posInt 1))]) "hashRate" = none ∧
  get_str (JValue.obj [("hashRate", JValue.str "fast"), ("hostname", JValue.num (JNum.posInt 1))]) "hostname" = none ∧
  get_any_as_string (JValue.obj [("hashRate", JValue.str "fast"), ("hostname", JValue.num (JNum.posInt 1))]) "bestDiff" = none :=
  ⟨(extraction_total_and_tolerant
      (JValue.obj [("hashRate", JValue.str "fast"), ("hostname", JValue.num (JNum.posInt 1))]) "temp").1,
   ((extraction_total_and_tolerant
      (JValue.obj [("hashRate", JValue.str "fast"), ("hostname", JValue.num (JNum.posInt 1))]) "temp").2.1 rfl).1,
   (extraction_total_and_tolerant
      (JValue.obj [("hashRate", JValue.str "fast"), ("hostname", JValue.num (JNum.posInt 1))]) "hashRate").2.2.1
      (JValue.str "fast") rfl rfl,
   (extraction_total_and_tolerant
      (JValue.obj [("hashRate", JValue.str "fast"), ("hostname", JValue.num (JNum.posInt 1))]) "hostname").2.2.2.1
      (JValue.num (JNum.posInt 1)) rfl rfl,
   ((extraction_total_and_tolerant
      (JValue.obj [("hashRate", JValue.str "fast"), ("hostname", JValue.num (JNum.posInt 1))]) "bestDiff").2.1 rfl).2.2⟩

/-- Counterexample to claim C3 as stated: with the config file present
but malformed, the program does not fail with a configuration error.
A build failure is discarded by .ok() inside load_config, which returns
the all-None config; a deserialization failure makes load_config return
an error, but main discards it with unwrap_or; in both cases a status
run proceeds normally. -/
theorem malformed_config_counterexample :
  load_config FileOutcome.parseError = Except.ok { host := none } ∧
  mainLoadedConfig FileOutcome.parseError = { host := none } ∧
  mainLoadedConfig FileOutcome.deserError = { host := none } ∧
  mainRun { host := some "http://a", command := Commands.status } none FileOutcome.parseError
      200 (some (JValue.obj [])) = Except.ok ["=== Bitaxe System Info ==="] ∧
  mainRun { host := some "http://a", command := Commands.status } none FileOutcome.deserError
      200 (some (JValue.obj [])) = Except.ok ["=== Bitaxe System Info ==="] :=
  ⟨rfl, rfl, rfl, rfl, rfl⟩

/-- Claim C3 amended: when the config file is present but fails to parse
or to deserialize, the program behaves exactly as if the file were
absent — the malformed-file error never surfaces and the file source is
silently treated as not present. -/
theorem malformed_config_treated_as_absent :
  ∀ (cli : Cli) (envVar : Option String) (s : Nat) (b : Option JValue),
    mainRun cli envVar FileOutcome.parseError s b = mainRun cli envVar FileOutcome.absent s b ∧
    mainRun cli envVar FileOutcome.deserError s b = mainRun cli envVar FileOutcome.absent s b :=
  fun _ _ _ _ => ⟨rfl, rfl⟩

/-- Counterexample to claim C4 as stated: an empty CLI override is
returned verbatim, so resolution can succeed with an empty effective
address. -/
theorem resolve_empty_override_counterexample :
  resolve_host { host := some "", command := Commands.status } none { host := none } =
      Except.ok "" ∧
  String.isEmpty "" = true :=
  ⟨rfl, rfl⟩

/-- Claim C4 amended: resolution returns the winning source verbatim, so
the effective address is non-empty whenever every present override and
file value is non-empty; the environment winner is checked for
non-emptiness by the code itself. -/
theorem resolve_nonempty_of_nonempty_sources :
  ∀ (cli : Cli) (envVar : Option String) (cfg : AppConfig) (s : String),
    (∀ h, cli.host = some h → h.isEmpty = false) →
    (∀ h, cfg.host = some h → h.isEmpty = false) →
    resolve_host cli envVar cfg = Except.ok s → s.isEmpty = false := by
  intro cli envVar cfg s hcli hcfg hres
  rcases hc : cli.host with _ | h
  · rcases he : envVar with _ | e
    · rcases hf : cfg.host with _ | h2
      · simp [resolve_host, hc, he, resolveFile, hf] at hres
      · simp [resolve_host, hc, he, resolveFile, hf] at hres
        exact hres ▸ hcfg h2 hf
    · by_cases hb : e.isEmpty
      · rcases hf : cfg.host with _ | h2
        · simp [resolve_host, hc, he, hb, resolveFile, hf] at hres
        · simp [resolve_host, hc, he, hb, resolveFile, hf] at hres
          exact hres ▸ hcfg h2 hf
      · simp [resolve_host, hc, he, hb] at hres
        exact hres ▸ (Bool.of_not_eq_true hb)
  · simp [resolve_host, hc] at hres
    exact hres ▸ hcli h hc

/-- Witness for the amended C4: the environment source wins and the
resolved address is non-empty. -/
theorem resolve_nonempty_of_nonempty_sources_app :
  String.isEmpty "http://b" = false :=
  resolve_nonempty_of_nonempty_sources { host := none, command := Commands.status }
    (some "http://b") { host := none } "http://b"
    (fun _ hh => Option.noConfusion hh) (fun _ hh => Option.noConfusion hh) rfl

/-- Claim C5: with the override, the environment variable and the file
value all absent, resolution fails with the no-host error, whose message
names the CLI flag, the environment variable and the config file. -/
theorem no_host_error :
  ∀ (cli : Cli) (envVar : Option String) (cfg : AppConfig),
    cli.host = none → envVar = none → cfg.host = none →
    resolve_host cli envVar cfg = Except.error noHostMsg ∧
    noHostMsg = "No host configured. Use " ++ "--host" ++ ", set " ++ "BITAXE_URL" ++
      ", or create " ++ "~/.config/bitaxe-cli/config.toml" := by
  intro cli envVar cfg hc he hf
  refine ⟨?_, rfl⟩
  simp [resolve_host, hc, he, resolveFile, hf]

/-- Witness for C5: all sources absent at a concrete input. -/
theorem no_host_error_app :
  resolve_host { host := none, command := Commands.status } none { host := none } =
      Except.error noHostMsg ∧
  noHostMsg = "No host configured. Use " ++ "--host" ++ ", set " ++ "BITAXE_URL" ++
      ", or create " ++ "~/.config/bitaxe-cli/config.toml" :=
  no_host_error _ _ _ rfl rfl rfl

/-- Claim C6: numerically equal JSON numbers extract to the same
normalized value whatever their encoding (unsigned integer, signed
integer or float), so any fixed-precision rendering of the field agrees
across encodings. -/
theorem numeric_encoding_uniform :
  ∀ (k : String) (d₁ d₂ : JValue) (n₁ n₂ : JNum),
    n₁.toVal = n₂.toVal →
    d₁.get k = some (JValue.num n₁) →
    d₂.get k = some (JValue.num n₂) →
    get_number d₁ k = some n₁.toVal ∧
    get_number d₁ k = get_number d₂ k ∧
    ∀ p : Nat, Option.map (fmtFixed p) (get_number d₁ k) =
      Option.map (fmtFixed p) (get_number d₂ k) := by
  intro k d₁ d₂ n₁ n₂ hval h₁ h₂
  refine ⟨?_, ?_, ?_⟩
  · simp [get_number, h₁, numberExtract_num]
  · simp [get_number, h₁, h₂, numberExtract_num, hval]
  · intro p
    simp [get_number, h₁, h₂, numberExtract_num, hval]

/-- Witness for C6: the integer 100 and the float 100.0 both render as
100.00 under two-decimal formatting. -/
theorem numeric_encoding_uniform_app :
  get_number (JValue.obj [("power", JValue.num (JNum.posInt 100))]) "power" =
    get_number (JValue.obj [("power", JValue.num (JNum.float 100))]) "power" ∧
  Option.map (fmtFixed 2) (get_number (JValue.obj [("power", JValue.num (JNum.posInt 100))]) "power") =
    Option.map (fmtFixed 2) (get_number (JValue.obj [("power", JValue.num (JNum.float 100))]) "power") ∧
  Option.map (fmtFixed 2) (get_number (JValue.obj [("power", JValue.num (JNum.posInt 100))]) "power") =
    some "100.00" :=
  ⟨(numeric_encoding_uniform "power" (JValue.obj [("power", JValue.num (JNum.posInt 100))])
      (JValue.obj [("power", JValue.num (JNum.float 100))]) (JNum.posInt 100) (JNum.float 100)
      (by with_unfolding_all rfl) rfl rfl).2.1,
   (numeric_encoding_uniform "power" (JValue.obj [("power", JValue.num (JNum.posInt 100))])
      (JValue.obj [("power", JValue.num (JNum.float 100))]) (JNum.posInt 100) (JNum.float 100)
      (by with_unfolding_all rfl) rfl rfl).2.2 2,
   by with_unfolding_all rfl⟩

/-- Claim C7: rendering emits the present fields in the fixed declared
order (the rendering of the extracted record in declared order) and no
line for absent fields; the output is unchanged under reordering of the
JSON keys; the document with hashRate 450.5 and temp 60 yields exactly
the two lines 450.50 GH/s and 60.0 °C; the empty document yields the
header only, with zero data lines. -/
theorem render_fixed_order :
  ∀ (info d₁ d₂ : JValue),
    showStatusLines info = renderRecord (TelemetryRecord.extract info) ∧
    ((∀ k, d₁.get k = d₂.get k) → showStatusLines d₁ = showStatusLines d₂) ∧
    showStatusLines (JValue.obj [("hashRate", JValue.num (JNum.float 450.5)),
        ("temp", JValue.num (JNum.posInt 60))]) =
      ["Hashrate        : 450.50 GH/s", "Core Temp       : 60.0 °C"] ∧
    showStatusLines (JValue.obj [("temp", JValue.num (JNum.posInt 60)),
        ("hashRate", JValue.num (JNum.float 450.5))]) =
      ["Hashrate        : 450.50 GH/s", "Core Temp       : 60.0 °C"] ∧
    show_status 200 (some (JValue.obj [])) = Except.ok ["=== Bitaxe System Info ==="] := by
  intro info d₁ d₂
  refine ⟨rfl, ?_, ?_, ?_, ?_⟩
  · intro h
    simp only [showStatusLines, get_number, get_str, get_any_as_string, h]
  · with_unfolding_all rfl
  · with_unfolding_all rfl
  · with_unfolding_all rfl

/-- Witness for C7: the two-field document and its key-reversed variant
render identically. -/
theorem render_fixed_order_app :
  showStatusLines (JValue.obj [("hashRate", JValue.num (JNum.float 450.5)),
      ("temp", JValue.num (JNum.posInt 60))]) =
    showStatusLines (JValue.obj [("temp", JValue.num (JNum.posInt 60)),
      ("hashRate", JValue.num (JNum.float 450.5))]) :=
  (render_fixed_order (JValue.obj [])
    (JValue.obj [("hashRate", JValue.num (JNum.float 450.5)), ("temp", JValue.num (JNum.posInt 60))])
    (JValue.obj [("temp", JValue.num (JNum.posInt 60)), ("hashRate", JValue.num (JNum.float 450.5))])).2.1
    (by
      intro k
      by_cases e1 : k = "hashRate"
      · subst e1
        rfl
      · by_cases e2 : k = "temp"
        · subst e2
          rfl
        · have b1 : ("hashRate" == k) = false := beq_eq_false_iff_ne.mpr (fun h => e1 h.symm)
          have b2 : ("temp" == k) = false := beq_eq_false_iff_ne.mpr (fun h => e2 h.symm)
          simp [JValue.get, List.find?, b1, b2])

/-- Claim C8: a present numeric voltage field with value v renders as
one line showing v divided by 1000 at two decimal places with the V
suffix. -/
theorem voltage_scaled_display :
  ∀ (info : JValue) (v : ℚ),
    get_number info "voltage" = some v →
    ∃ pre post : List String,
      showStatusLines info =
        pre ++ ("PSU Voltage     : " ++ fmtFixed 2 (v / 1000) ++ " V") :: post := by
  intro info v hv
  refine ⟨optLine (get_str info "hostname") (fun hostname => "Hostname        : " ++ hostname) ++
    optLine (get_number info "hashRate") (fun hash => "Hashrate        : " ++ fmtFixed 2 hash ++ " GH/s") ++
    optLine (get_any_as_string info "bestDiff") (fun best => "Best Diff       : " ++ best) ++
    optLine (get_any_as_string info "bestSessionDiff") (fun bs => "Best Session    : " ++ bs) ++
    optLine (get_number info "sharesAccepted") (fun a => "Shares Accepted : " ++ fmtFixed 0 a) ++
    optLine (get_number info "sharesRejected") (fun r => "Shares Rejected : " ++ fmtFixed 0 r) ++
    optLine (get_number info "temp") (fun t => "Core Temp       : " ++ fmtFixed 1 t ++ " °C") ++
    optLine (get_number info "vrTemp") (fun t => "VR Temp         : " ++ fmtFixed 1 t ++ " °C") ++
    optLine (get_number info "power") (fun p => "Power           : " ++ fmtFixed 2 p ++ " W"),
    optLine (get_number info "frequency") (fun f => "Frequency       : " ++ fmtFixed 0 f ++ " MHz") ++
    optLine (get_number info "coreVoltage") (fun cv => "Core V (set)    : " ++ fmtFixed 0 cv ++ " mV") ++
    optLine (get_number info "coreVoltageActual") (fun cva => "Core V (actual) : " ++ fmtFixed 0 cva ++ " mV") ++
    optLine (get_number info "wifiRSSI") (fun rssi => "WiFi RSSI       : " ++ fmtFixed 0 rssi ++ " dBm") ++
    optLine (get_str info "wifiStatus") (fun st => "WiFi Status     : " ++ st), ?_⟩
  simp [showStatusLines, hv, optLine, List.append_assoc]

/-- Witness for C8: voltage 5000 millivolts renders as the single line
PSU Voltage 5.00 V. -/
theorem voltage_scaled_display_app :
  (∃ pre post : List String,
    showStatusLines (JValue.obj [("voltage", JValue.num (JNum.posInt 5000))]) =
      pre ++ ("PSU Voltage     : " ++ fmtFixed 2 ((5000 : ℚ) / 1000) ++ " V") :: post) ∧
  showStatusLines (JValue.obj [("voltage", JValue.num (JNum.posInt 5000))]) =
    ["PSU Voltage     : 5.00 V"] :=
  ⟨voltage_scaled_display (JValue.obj [("voltage", JValue.num (JNum.posInt 5000))]) 5000
    (by with_unfolding_all rfl),
   by with_unfolding_all rfl⟩

/-- Claim C9: the restart command issues a POST to the address followed
by /api/system/restart; the outcome ignores the response body entirely;
a non-2xx status yields an error whose message carries the numeric
status code and no confirmation output; a 2xx status yields exactly the
single confirmation message. -/
theorem restart_contract :
  ∀ (host : String) (s : Nat) (b₁ b₂ : Option JValue),
    restartRequest host = { method := HttpMethod.post, url := host ++ "/api/system/restart" } ∧
    restart_miner s b₁ = restart_miner s b₂ ∧
    (isSuccessStatus s = false →
      (∃ rest, restart_miner s b₁ =
        Except.error ("Restart failed with status " ++ toString s ++ rest)) ∧
      ∀ out, restart_miner s b₁ ≠ Except.ok out) ∧
    (isSuccessStatus s = true →
      restart_miner s b₁ = Except.ok ["Restart command sent successfully."]) := by
  intro host s b₁ b₂
  refine ⟨rfl, rfl, ?_, ?_⟩
  · intro hf
    constructor
    · refine ⟨" " ++ (canonicalReason s).getD "<unknown status code>", ?_⟩
      simp [restart_miner, hf, statusDisplay, String.append_assoc]
    · intro out h
      simp [restart_miner, hf] at h
  · intro ht
    simp [restart_miner, ht]

/-- Witness for C9: HTTP 503 fails with the code in the message and no
confirmation; HTTP 200 emits the single confirmation line. -/
theorem restart_contract_app :
  (restartRequest "http://a").url = "http://a" ++ "/api/system/restart" ∧
  restart_miner 503 none = restart_miner 503 (some (JValue.obj [])) ∧
  (∃ rest, restart_miner 503 none =
    Except.error ("Restart failed with status " ++ toString 503 ++ rest)) ∧
  restart_miner 503 none ≠ Except.ok ["Restart command sent successfully."] ∧
  restart_miner 503 none = Except.error "Restart failed with status 503 Service Unavailable" ∧
  restart_miner 200 none = Except.ok ["Restart command sent successfully."] := by
  refine ⟨?_, ?_, ?_, ?_, ?_, ?_⟩
  · exact congrArg HttpRequest.url (restart_contract "http://a" 503 none none).1
  · exact (restart_contract "http://a" 503 none (some (JValue.obj []))).2.1
  · exact ((restart_contract "http://a" 503 none none).2.2.1 rfl).1
  · exact ((restart_contract "http://a" 503 none none).2.2.1 rfl).2 _
  · rfl
  · exact (restart_contract "http://a" 200 none none).2.2.2 rfl

/-- Claim C10: the emptiness check applies only to the environment
source: with the override absent and the environment variable set to the
empty string, a present file value wins and is returned verbatim, an
empty file value included. -/
theorem empty_env_file_wins :
  ∀ (cli : Cli) (cfg : AppConfig) (v : String),
    cli.host = none → cfg.host = some v →
    resolve_host cli (some "") cfg = Except.ok v := by
  intro cli cfg v hc hf
  simp [resolve_host, hc, resolveFile, hf, show String.isEmpty "" = true from rfl]

/-- Witness for C10: the empty environment value is skipped and the file
value wins, both for an empty and for a normal file value. -/
theorem empty_env_file_wins_app :
  resolve_host { host := none, command := Commands.status } (some "") { host := some "" } =
      Except.ok "" ∧
  resolve_host { host := none, command := Commands.status } (some "") { host := some "http://c" } =
      Except.ok "http://c" :=
  ⟨empty_env_file_wins _ _ _ rfl rfl, empty_env_file_wins _ _ _ rfl rfl⟩

end Bitaxe
